import Mathlib

/-!
Verification of the Demucs stem-separation microservice
(`src/app/services/demucs/main.py`), a FastAPI service with three request
handlers (`/separate`, `/separate/all`, `/separate/stem/{stem_name}`), a
health endpoint, and a process-wide lazily-initialized model cache.

The embedding is a shallow one: the inference engine, the WAV encoder and
the CUDA probe are opaque collaborators supplied by an `Env` record; the
global `_separator` slot is an explicit `CacheState` threaded through each
operation; scratch-file creation and deletion and per-stem encoding are
recorded as an explicit event trace so that resource-handling properties
can be stated.
-/

namespace Demucs

/-- A loaded `demucs.api.Separator` instance: the `model` and `device`
arguments it was constructed with. -/
structure Handle where
  model : String
  device : String
deriving DecidableEq, Repr

/-- The process-wide module state: the global `_separator` slot
(`None` until a construction has succeeded). -/
structure CacheState where
  cache : Option Handle
deriving DecidableEq, Repr

/-- The opaque collaborators of the service: the CUDA probe
(`torch.cuda.is_available()`), the possibility of `demucs.api.Separator`
raising on construction, the engine call `separator.separate_audio_file`
returning a stem-name-to-tensor mapping or raising with a message, the
separator samplerate, and the WAV encoder `torchaudio.save(..., format="wav")`
viewed as samples-to-bytes. Tensors are sample lists, bytes are `Nat` lists. -/
structure Env where
  cudaAvailable : Bool
  loadError : String → Option String
  engine : Handle → String → Except String (List (String × List Int))
  samplerate : Handle → Nat
  encodeWav : List Int → Nat → List Nat

/-- `"cuda" if torch.cuda.is_available() else "cpu"`. -/
def selectDevice (env : Env) : String :=
  if env.cudaAvailable then "cuda" else "cpu"

/-- `get_separator(model)`: if the global slot is empty, construct a
separator on the selected device and record it; otherwise return the
cached one. The result is the raised-or-returned separator, the new global
state, and whether a construction ran. On a construction error the slot is
untouched (the assignment follows a successful constructor call). -/
def get_separator (env : Env) (model : String) (s : CacheState) :
    Except String Handle × CacheState × Bool :=
  match s.cache with
  | some h => (Except.ok h, s, false)
  | none =>
    match env.loadError model with
    | some msg => (Except.error msg, s, false)
    | none =>
      let h : Handle := Handle.mk model (selectDevice env)
      (Except.ok h, CacheState.mk (some h), true)

/-- `startup_event()`: pre-load the default model, swallowing any failure
(the exception is logged and the state is whatever the call left). -/
def startup_event (env : Env) (s : CacheState) : CacheState :=
  (get_separator env "htdemucs" s).2.1

/-- The JSON body returned by `/health`. -/
structure HealthReport where
  status : String
  device : String
  cuda_available : Bool
  model_loaded : Bool
deriving DecidableEq, Repr

/-- `health_check()`: a total function of the probe and the global slot. -/
def health_check (env : Env) (s : CacheState) : HealthReport :=
  HealthReport.mk "healthy" (selectDevice env) env.cudaAvailable s.cache.isSome

/-- One entry of the metadata response (`StemInfo` pydantic model). -/
structure StemInfo where
  name : String
  size_bytes : Nat
deriving DecidableEq, Repr

/-- The metadata response (`SeparationResult` pydantic model). -/
structure SeparationResult where
  track_id : String
  stems : List StemInfo
  model : String
  device : String
deriving DecidableEq, Repr

/-- Observable resource events of one request: scratch-file creation and
deletion (`tempfile.NamedTemporaryFile` / `os.unlink`) and per-stem WAV
encoding work (`torchaudio.save`). -/
inductive Event where
  | scratchCreated (path : String)
  | scratchDeleted (path : String)
  | encoded (stem : String)
deriving DecidableEq, Repr

/-- An exception escaping the inner `try` of `separate_audio`: either a
`HTTPException(status, detail)` or a generic Python exception with its
`str(e)` message. -/
inductive Exc where
  | http (status : Nat) (detail : String)
  | py (msg : String)
deriving DecidableEq, Repr

/-- The response value a handler produces (after FastAPI renders a raised
`HTTPException` as an error response). -/
inductive Response where
  | httpError (status : Nat) (detail : String)
  | stemStream (body : List Nat) (mediaType : String)
      (contentDisposition : String) (trackId : String) (stemName : String)
  | metadata (result : SeparationResult)
  | zipBundle (entries : List (String × List Nat)) (mediaType : String)
      (contentDisposition : String) (trackId : String)
deriving DecidableEq, Repr

/-- A single quote character, as Python f-strings print around a `str`. -/
def sq : String := String.singleton (Char.ofNat 39)

/-- Python `repr` of a string: the text between single quotes. -/
def pyStrRepr (s : String) : String := sq ++ s ++ sq

/-- Python rendering of the elements of a list of strings. -/
def pyListReprAux : List String → String
  | [] => ""
  | [x] => pyStrRepr x
  | x :: y :: ys => pyStrRepr x ++ ", " ++ pyListReprAux (y :: ys)

/-- Python `str` of a list of strings, as an f-string interpolates it. -/
def pyListRepr (xs : List String) : String :=
  "[" ++ pyListReprAux xs ++ "]"

/-- The detail of the unknown-stem `HTTPException`:
`f-string "Stem |stem| not found. Available: |stem_names|"` with the stem in
quotes and the names rendered as a Python list. -/
def unknownStemMsg (stem : String) (stem_names : List String) : String :=
  "Stem " ++ pyStrRepr stem ++ " not found. Available: " ++ pyListRepr stem_names

/-- The inner `try` block of `separate_audio` (lines 100-148): obtain the
separator, run the engine on the scratch path, then either validate and
stream one stem or build the metadata descriptor. The `if stem:` test is
Python truthiness on an `Optional[str]`: it is false both for `None` and
for the empty string, which therefore takes the metadata branch. Returns
the returned-or-raised outcome, the global state, and the encoding
events. -/
def separate_body (env : Env) (model : String) (stem : Option String)
    (track_id : String) (tmp_path : String) (s : CacheState) :
    Except Exc Response × CacheState × List Event :=
  match get_separator env model s with
  | (Except.error msg, s1, _) => (Except.error (Exc.py msg), s1, [])
  | (Except.ok separator, s1, _) =>
    match env.engine separator tmp_path with
    | Except.error msg => (Except.error (Exc.py msg), s1, [])
    | Except.ok separated =>
      let stem_names := separated.map Prod.fst
      if stem.getD "" = "" then
        let stems_info := separated.map (fun p =>
          StemInfo.mk p.1 (env.encodeWav p.2 (env.samplerate separator)).length)
        (Except.ok (Response.metadata
            (SeparationResult.mk track_id stems_info model (selectDevice env))),
          s1, separated.map (fun p => Event.encoded p.1))
      else
        let st := stem.getD ""
        match separated.lookup st with
        | none =>
          (Except.error (Exc.http 400 (unknownStemMsg st stem_names)), s1, [])
        | some stem_tensor =>
          let buffer := env.encodeWav stem_tensor (env.samplerate separator)
          (Except.ok (Response.stemStream buffer "audio/wav"
              ("attachment; filename=\"" ++ st ++ ".wav\"") track_id st),
            s1, [Event.encoded st])

/-- The outer exception mapping of `separate_audio`:
`except HTTPException: raise` keeps the status and detail; any other
exception becomes `HTTPException(500, "Separation failed: " + str(e))`. -/
def wrapResponse : Except Exc Response → Response
  | Except.ok resp => resp
  | Except.error (Exc.http status detail) => Response.httpError status detail
  | Except.error (Exc.py msg) =>
      Response.httpError 500 ("Separation failed: " ++ msg)

/-- `POST /separate` (`separate_audio`): reject a missing or empty filename
before any file is written; otherwise persist the upload to a scratch path,
run the inner block, and delete the scratch file in `finally` on every exit
path before the outer exception mapping produces the response. -/
def separate_audio (env : Env) (filename : Option String) (model : String)
    (stem : Option String) (track_id : String) (tmp_path : String)
    (s : CacheState) : Response × CacheState × List Event :=
  if filename.getD "" = "" then
    (Response.httpError 400 "No filename provided", s, [])
  else
    let r := separate_body env model stem track_id tmp_path s
    (wrapResponse r.1, r.2.1,
      Event.scratchCreated tmp_path :: r.2.2 ++ [Event.scratchDeleted tmp_path])

/-- The inner `try` block of `separate_all_stems` (lines 184-210): obtain
the separator, run the engine, then write one `<name>.wav` entry per stem
into the zip buffer; the `format == "mp3"` branch calls the same WAV
encoder as the other branch. No `HTTPException` is raised inside. -/
def separate_all_body (env : Env) (model : String) (format : String)
    (track_id : String) (tmp_path : String) (s : CacheState) :
    Except String Response × CacheState × List Event :=
  match get_separator env model s with
  | (Except.error msg, s1, _) => (Except.error msg, s1, [])
  | (Except.ok separator, s1, _) =>
    match env.engine separator tmp_path with
    | Except.error msg => (Except.error msg, s1, [])
    | Except.ok separated =>
      let entries := separated.map (fun p =>
        let stem_buffer :=
          if format = "mp3" then
            env.encodeWav p.2 (env.samplerate separator)
          else
            env.encodeWav p.2 (env.samplerate separator)
        (p.1 ++ ".wav", stem_buffer))
      (Except.ok (Response.zipBundle entries "application/zip"
          ("attachment; filename=\"stems_" ++ track_id ++ ".zip\"") track_id),
        s1, separated.map (fun p => Event.encoded p.1))

/-- The outer exception mapping of `separate_all_stems`: any exception
becomes `HTTPException(500, "Separation failed: " + str(e))`. -/
def wrapResponseAll : Except String Response → Response
  | Except.ok resp => resp
  | Except.error msg => Response.httpError 500 ("Separation failed: " ++ msg)

/-- `POST /separate/all` (`separate_all_stems`): reject a missing or empty
filename before any file is written; otherwise persist the upload, run the
inner block, and delete the scratch file in `finally` on every exit path. -/
def separate_all_stems (env : Env) (filename : Option String) (model : String)
    (format : String) (track_id : String) (tmp_path : String)
    (s : CacheState) : Response × CacheState × List Event :=
  if filename.getD "" = "" then
    (Response.httpError 400 "No filename provided", s, [])
  else
    let r := separate_all_body env model format track_id tmp_path s
    (wrapResponseAll r.1, r.2.1,
      Event.scratchCreated tmp_path :: r.2.2 ++ [Event.scratchDeleted tmp_path])

/-- `POST /separate/stem/{stem_name}` (`get_single_stem`): delegates to
`separate_audio` with the path parameter as the stem filter. -/
def get_single_stem (env : Env) (stem_name : String) (filename : Option String)
    (model : String) (track_id : String) (tmp_path : String)
    (s : CacheState) : Response × CacheState × List Event :=
  separate_audio env filename model (some stem_name) track_id tmp_path s

/-- A handle for model `m` is cached: the claim vocabulary for
"a handle exists for this model identifier". -/
def handleFor (s : CacheState) (m : String) : Prop :=
  ∃ h, s.cache = some h ∧ h.model = m

/-- A concrete environment: no CUDA, constructions succeed, the engine
returns a two-stem mapping, and the encoder prepends a header byte. -/
def envOk : Env :=
  { cudaAvailable := false
    loadError := fun _ => none
    engine := fun _ _ => Except.ok [("vocals", [1, 2]), ("drums", [3])]
    samplerate := fun _ => 44100
    encodeWav := fun samples _ => 0 :: samples.map Int.toNat }

/-- A concrete environment whose engine call raises with message `msg`. -/
def envFail (msg : String) : Env :=
  { envOk with engine := fun _ _ => Except.error msg }

/-- A concrete environment whose separator construction raises. -/
def envLoadFail (msg : String) : Env :=
  { envOk with loadError := fun _ => some msg }

/-- After any successful `get_separator` call, the slot holds the returned
handle. -/
lemma get_separator_ok_cache (env : Env) (model : String) (s s1 : CacheState)
    (h : Handle) (b : Bool)
    (h1 : get_separator env model s = (Except.ok h, s1, b)) :
    s1.cache = some h := by
  unfold get_separator at h1
  cases hs : s.cache with
  | some h0 =>
    rw [hs] at h1
    simp only [Prod.mk.injEq, Except.ok.injEq] at h1
    obtain ⟨rfl, rfl, -⟩ := h1
    exact hs
  | none =>
    rw [hs] at h1
    cases hl : env.loadError model with
    | some msg => rw [hl] at h1; simp at h1
    | none =>
      rw [hl] at h1
      simp only [Prod.mk.injEq, Except.ok.injEq] at h1
      obtain ⟨rfl, rfl, -⟩ := h1
      rfl

/-- Claim C1, counterexample: with a handle for `htdemucs` cached, a call
naming `mdx` — an identifier for which no handle exists — constructs
nothing and returns the `htdemucs` handle unchanged, against the
per-identifier reading of the contract. -/
theorem C1_counterexample :
    ¬ handleFor (CacheState.mk (some (Handle.mk "htdemucs" "cpu"))) "mdx" ∧
    get_separator envOk "mdx" (CacheState.mk (some (Handle.mk "htdemucs" "cpu"))) =
      (Except.ok (Handle.mk "htdemucs" "cpu"),
        CacheState.mk (some (Handle.mk "htdemucs" "cpu")), false) := by
  constructor
  · rintro ⟨h, hh, hm⟩
    simp only [Option.some.injEq] at hh
    rw [← hh] at hm
    exact absurd hm (by decide)
  · rfl

/-- Claim C1, amended: the cache is a single slot not keyed by the model
identifier — if the slot is empty, a handle for the named model bound to
the selected device is constructed and recorded; if any handle is cached,
it is returned unchanged regardless of the identifier requested. -/
theorem C1_single_slot (env : Env) (model : String) (s : CacheState) :
    (s.cache = none → env.loadError model = none →
      get_separator env model s =
        (Except.ok (Handle.mk model (selectDevice env)),
          CacheState.mk (some (Handle.mk model (selectDevice env))), true)) ∧
    (∀ h, s.cache = some h →
      get_separator env model s = (Except.ok h, s, false)) := by
  constructor
  · intro hn hl
    simp [get_separator, hn, hl]
  · intro h hh
    simp [get_separator, hh]

/-- Witness for C1: a fresh-slot load and a mismatched-identifier hit. -/
theorem C1_single_slot_witness :
    get_separator envOk "htdemucs" (CacheState.mk none) =
      (Except.ok (Handle.mk "htdemucs" (selectDevice envOk)),
        CacheState.mk (some (Handle.mk "htdemucs" (selectDevice envOk))), true) ∧
    get_separator envOk "mdx" (CacheState.mk (some (Handle.mk "htdemucs" "cpu"))) =
      (Except.ok (Handle.mk "htdemucs" "cpu"),
        CacheState.mk (some (Handle.mk "htdemucs" "cpu")), false) :=
  ⟨(C1_single_slot envOk "htdemucs" (CacheState.mk none)).1 rfl rfl,
    (C1_single_slot envOk "mdx" (CacheState.mk (some (Handle.mk "htdemucs" "cpu")))).2
      (Handle.mk "htdemucs" "cpu") rfl⟩

/-- Claim C8: after a call for `model` succeeds, a second call for `model`
returns the same cached handle without running the construction step
(third component `false`), so construction runs at most once while the
cache holds the handle. -/
theorem C8_get_separator_idempotent (env : Env) (model : String)
    (s s1 : CacheState) (h : Handle) (b : Bool)
    (h1 : get_separator env model s = (Except.ok h, s1, b)) :
    get_separator env model s1 = (Except.ok h, s1, false) := by
  simp [get_separator, get_separator_ok_cache env model s s1 h b h1]

/-- Witness for C8: the second call after a fresh load hits the cache. -/
theorem C8_get_separator_idempotent_witness :
    get_separator envOk "htdemucs"
        (CacheState.mk (some (Handle.mk "htdemucs" "cpu"))) =
      (Except.ok (Handle.mk "htdemucs" "cpu"),
        CacheState.mk (some (Handle.mk "htdemucs" "cpu")), false) :=
  C8_get_separator_idempotent envOk "htdemucs" (CacheState.mk none)
    (CacheState.mk (some (Handle.mk "htdemucs" "cpu")))
    (Handle.mk "htdemucs" "cpu") true rfl

/-- Claim C9: `health_check` is a total function returning the
`{status, device, cuda_available, model_loaded}` report for every cache
state; `model_loaded` is the cache-occupancy flag, false on the empty
slot and true after any successful load, independent of the identifier. -/
theorem C9_health_check (env : Env) (s : CacheState) :
    health_check env s =
      HealthReport.mk "healthy" (selectDevice env) env.cudaAvailable
        s.cache.isSome ∧
    (health_check env (CacheState.mk none)).model_loaded = false ∧
    (∀ model h s1 b, get_separator env model s = (Except.ok h, s1, b) →
      (health_check env s1).model_loaded = true) := by
  refine ⟨rfl, rfl, ?_⟩
  intro model h s1 b h1
  simp [health_check, get_separator_ok_cache env model s s1 h b h1]

/-- Witness for C9: after a successful load the report shows
`model_loaded = true`. -/
theorem C9_health_check_witness :
    (health_check envOk
        (CacheState.mk (some (Handle.mk "htdemucs" "cpu")))).model_loaded = true :=
  (C9_health_check envOk (CacheState.mk none)).2.2 "htdemucs"
    (Handle.mk "htdemucs" "cpu")
    (CacheState.mk (some (Handle.mk "htdemucs" "cpu"))) true rfl

/-- Claim C10: if construction raises, `get_separator` leaves the slot
empty and reports the error; the startup warm-up swallows the failure and
leaves the state unchanged; `model_loaded` stays false; and a later call
for the same model with a succeeding constructor loads it. -/
theorem C10_load_failure (env env2 : Env) (model msg msg2 : String)
    (s : CacheState) (hc : s.cache = none)
    (hl : env.loadError model = some msg) :
    get_separator env model s = (Except.error msg, s, false) ∧
    (env.loadError "htdemucs" = some msg2 → startup_event env s = s) ∧
    (health_check env s).model_loaded = false ∧
    (env2.loadError model = none →
      get_separator env2 model s =
        (Except.ok (Handle.mk model (selectDevice env2)),
          CacheState.mk (some (Handle.mk model (selectDevice env2))), true)) := by
  refine ⟨?_, ?_, ?_, ?_⟩
  · simp [get_separator, hc, hl]
  · intro h2
    simp [startup_event, get_separator, hc, h2]
  · simp [health_check, hc]
  · intro h2
    simp [get_separator, hc, h2]

/-- Witness for C10: a failed warm-up leaves the slot empty and a retry
with a healthy constructor succeeds. -/
theorem C10_load_failure_witness :
    get_separator (envLoadFail "driver missing") "htdemucs" (CacheState.mk none) =
      (Except.error "driver missing", CacheState.mk none, false) ∧
    startup_event (envLoadFail "driver missing") (CacheState.mk none) =
      CacheState.mk none ∧
    get_separator envOk "htdemucs" (CacheState.mk none) =
      (Except.ok (Handle.mk "htdemucs" (selectDevice envOk)),
        CacheState.mk (some (Handle.mk "htdemucs" (selectDevice envOk))), true) :=
  ⟨(C10_load_failure (envLoadFail "driver missing") envOk "htdemucs"
      "driver missing" "driver missing" (CacheState.mk none) rfl rfl).1,
    (C10_load_failure (envLoadFail "driver missing") envOk "htdemucs"
      "driver missing" "driver missing" (CacheState.mk none) rfl rfl).2.1 rfl,
    (C10_load_failure (envLoadFail "driver missing") envOk "htdemucs"
      "driver missing" "driver missing" (CacheState.mk none) rfl rfl).2.2.2 rfl⟩

/-- Infix of the right summand of a string append. -/
lemma str_infix_append_left (a c : String) (n : List Char)
    (h : n <:+: c.data) : n <:+: (a ++ c).data := by
  rw [String.data_append]
  exact h.trans (List.suffix_append a.data c.data).isInfix

/-- Infix of the left summand of a string append. -/
lemma str_infix_append_right (a c : String) (n : List Char)
    (h : n <:+: a.data) : n <:+: (a ++ c).data := by
  rw [String.data_append]
  exact h.trans (List.prefix_append a.data c.data).isInfix

/-- A string occurs inside its own Python `repr`. -/
lemma self_infix_pyStrRepr (n : String) : n.data <:+: (pyStrRepr n).data := by
  apply str_infix_append_right (sq ++ n) sq
  exact str_infix_append_left sq n n.data List.infix_rfl

/-- Every member of a string list occurs inside the rendered element text. -/
lemma mem_infix_pyListReprAux (n : String) (l : List String) (h : n ∈ l) :
    n.data <:+: (pyListReprAux l).data := by
  induction l with
  | nil => cases h
  | cons x xs ih =>
    cases xs with
    | nil =>
      rcases List.mem_singleton.mp h with rfl
      exact self_infix_pyStrRepr n
    | cons y ys =>
      rcases List.mem_cons.mp h with rfl | h2
      · show n.data <:+: (pyStrRepr n ++ ", " ++ pyListReprAux (y :: ys)).data
        apply str_infix_append_right (pyStrRepr n ++ ", ") (pyListReprAux (y :: ys))
        exact str_infix_append_right (pyStrRepr n) ", " n.data (self_infix_pyStrRepr n)
      · show n.data <:+: (pyStrRepr x ++ ", " ++ pyListReprAux (y :: ys)).data
        exact str_infix_append_left (pyStrRepr x ++ ", ") (pyListReprAux (y :: ys))
          n.data (ih h2)

/-- Every available stem name occurs inside the unknown-stem detail text. -/
lemma mem_infix_unknownStemMsg (st n : String) (names : List String)
    (h : n ∈ names) : n.data <:+: (unknownStemMsg st names).data := by
  apply str_infix_append_left ("Stem " ++ pyStrRepr st ++ " not found. Available: ")
    (pyListRepr names)
  apply str_infix_append_right ("[" ++ pyListReprAux names) "]"
  exact str_infix_append_left "[" (pyListReprAux names) n.data
    (mem_infix_pyListReprAux n names h)

/-- Claim C2: in both handlers, on every outcome (arbitrary environment,
so load failure, engine failure, unknown stem and success are all
covered), if the trace records the scratch-file creation then it also
records its deletion. -/
theorem C2_scratch_released (env env2 : Env) (filename : Option String)
    (model format track_id tmp_path : String) (stem : Option String)
    (s s2 : CacheState) :
    (Event.scratchCreated tmp_path ∈
        (separate_audio env filename model stem track_id tmp_path s).2.2 →
      Event.scratchDeleted tmp_path ∈
        (separate_audio env filename model stem track_id tmp_path s).2.2) ∧
    (Event.scratchCreated tmp_path ∈
        (separate_all_stems env2 filename model format track_id tmp_path s2).2.2 →
      Event.scratchDeleted tmp_path ∈
        (separate_all_stems env2 filename model format track_id tmp_path s2).2.2) := by
  constructor <;> intro hcr
  · by_cases hf : filename.getD "" = ""
    · simp [separate_audio, hf] at hcr
    · simp [separate_audio, hf]
  · by_cases hf : filename.getD "" = ""
    · simp [separate_all_stems, hf] at hcr
    · simp [separate_all_stems, hf]

/-- Witness for C2: deletion is recorded both on an engine failure in
`separate_audio` and on a successful `separate_all_stems` bundle. -/
theorem C2_scratch_released_witness :
    Event.scratchDeleted "/tmp/u.wav" ∈
      (separate_audio (envFail "boom") (some "song.wav") "htdemucs" none "tid"
          "/tmp/u.wav" (CacheState.mk none)).2.2 ∧
    Event.scratchDeleted "/tmp/u.wav" ∈
      (separate_all_stems envOk (some "song.wav") "htdemucs" "mp3" "tid"
          "/tmp/u.wav" (CacheState.mk none)).2.2 :=
  ⟨(C2_scratch_released (envFail "boom") envOk (some "song.wav") "htdemucs"
      "mp3" "tid" "/tmp/u.wav" none (CacheState.mk none) (CacheState.mk none)).1
      (by decide),
    (C2_scratch_released (envFail "boom") envOk (some "song.wav") "htdemucs"
      "mp3" "tid" "/tmp/u.wav" none (CacheState.mk none) (CacheState.mk none)).2
      (by decide)⟩

/-- Claim C3, counterexample: the empty-string stem filter (`?stem=` in
the query) is not a member of the engine's vocals/drums stem set, yet the
request does not fail with a 400 — `if stem:` is false on `""`, so the
program returns the 200 metadata response. -/
theorem C3_counterexample :
    "" ∉ ["vocals", "drums"] ∧
    (separate_audio envOk (some "song.wav") "htdemucs" (some "") "tid"
        "/tmp/u.wav" (CacheState.mk none)).1 =
      Response.metadata
        (SeparationResult.mk "tid"
          [StemInfo.mk "vocals" 3, StemInfo.mk "drums" 2] "htdemucs" "cpu") := by
  constructor
  · decide
  · decide

/-- Claim C3, amended: a nonempty (truthy) stem filter absent from the
engine's returned mapping yields a 400 response whose detail is the
message enumerating the actual stem names (each name occurs in the
detail), and the trace shows no encoding work — only scratch creation and
deletion; an empty-string filter is treated as no filter. -/
theorem C3_unknown_stem (env : Env) (filename : Option String)
    (model st track_id tmp_path : String) (s s1 : CacheState)
    (separator : Handle) (b : Bool) (separated : List (String × List Int))
    (hf : ¬ filename.getD "" = "")
    (hemp : ¬ st = "")
    (hgs : get_separator env model s = (Except.ok separator, s1, b))
    (heng : env.engine separator tmp_path = Except.ok separated)
    (hlk : separated.lookup st = none) :
    (separate_audio env filename model (some st) track_id tmp_path s).1 =
      Response.httpError 400 (unknownStemMsg st (separated.map Prod.fst)) ∧
    (separate_audio env filename model (some st) track_id tmp_path s).2.2 =
      [Event.scratchCreated tmp_path, Event.scratchDeleted tmp_path] ∧
    ∀ name ∈ separated.map Prod.fst,
      name.data <:+: (unknownStemMsg st (separated.map Prod.fst)).data := by
  refine ⟨?_, ?_, ?_⟩
  · simp [separate_audio, hf, separate_body, hgs, heng, hlk, hemp, wrapResponse]
  · simp [separate_audio, hf, separate_body, hgs, heng, hlk, hemp]
  · intro name hn
    exact mem_infix_unknownStemMsg st name (separated.map Prod.fst) hn

/-- Witness for C3: requesting `guitar` against a vocals/drums result. -/
theorem C3_unknown_stem_witness :
    (separate_audio envOk (some "song.wav") "htdemucs" (some "guitar") "tid"
        "/tmp/u.wav" (CacheState.mk none)).1 =
      Response.httpError 400 (unknownStemMsg "guitar" ["vocals", "drums"]) ∧
    (separate_audio envOk (some "song.wav") "htdemucs" (some "guitar") "tid"
        "/tmp/u.wav" (CacheState.mk none)).2.2 =
      [Event.scratchCreated "/tmp/u.wav", Event.scratchDeleted "/tmp/u.wav"] := by
  have h := C3_unknown_stem envOk (some "song.wav") "htdemucs" "guitar" "tid"
    "/tmp/u.wav" (CacheState.mk none)
    (CacheState.mk (some (Handle.mk "htdemucs" "cpu")))
    (Handle.mk "htdemucs" "cpu") true [("vocals", [1, 2]), ("drums", [3])]
    (by decide) (by decide) rfl rfl rfl
  exact ⟨h.1, h.2.1⟩

/-- Claim C4, counterexample: the 500 body is not generic — it embeds the
engine's own error text, so two different causes produce two different
response bodies and the cause appears verbatim in the detail. -/
theorem C4_counterexample :
    (separate_audio (envFail "CUDA out of memory") (some "song.wav") "htdemucs"
        none "tid" "/tmp/u.wav" (CacheState.mk none)).1 =
      Response.httpError 500 ("Separation failed: " ++ "CUDA out of memory") ∧
    ("CUDA out of memory").data <:+:
      ("Separation failed: " ++ "CUDA out of memory").data ∧
    (separate_audio (envFail "cause A") (some "song.wav") "htdemucs" none "tid"
        "/tmp/u.wav" (CacheState.mk none)).1 ≠
      (separate_audio (envFail "cause B") (some "song.wav") "htdemucs" none "tid"
        "/tmp/u.wav" (CacheState.mk none)).1 := by
  refine ⟨rfl, ?_, by decide⟩
  exact str_infix_append_left "Separation failed: " "CUDA out of memory"
    ("CUDA out of memory").data List.infix_rfl

/-- Claim C4, amended: an engine failure yields a 500 response in both
handlers whose detail is the fixed prefix `Separation failed: ` followed
by the string of the underlying exception (so the cause message does
appear in the body; only the traceback stays server-side). -/
theorem C4_engine_failure_500 (env : Env) (filename : Option String)
    (model format track_id tmp_path msg : String) (stem : Option String)
    (s s1 : CacheState) (separator : Handle) (b : Bool)
    (hf : ¬ filename.getD "" = "")
    (hgs : get_separator env model s = (Except.ok separator, s1, b))
    (heng : env.engine separator tmp_path = Except.error msg) :
    (separate_audio env filename model stem track_id tmp_path s).1 =
      Response.httpError 500 ("Separation failed: " ++ msg) ∧
    (separate_all_stems env filename model format track_id tmp_path s).1 =
      Response.httpError 500 ("Separation failed: " ++ msg) := by
  constructor
  · simp [separate_audio, hf, separate_body, hgs, heng, wrapResponse]
  · simp [separate_all_stems, hf, separate_all_body, hgs, heng, wrapResponseAll]

/-- Witness for C4: a concrete engine failure in both handlers. -/
theorem C4_engine_failure_500_witness :
    (separate_audio (envFail "boom") (some "song.wav") "htdemucs" none "tid"
        "/tmp/u.wav" (CacheState.mk none)).1 =
      Response.httpError 500 ("Separation failed: " ++ "boom") ∧
    (separate_all_stems (envFail "boom") (some "song.wav") "htdemucs" "wav"
        "tid" "/tmp/u.wav" (CacheState.mk none)).1 =
      Response.httpError 500 ("Separation failed: " ++ "boom") :=
  C4_engine_failure_500 (envFail "boom") (some "song.wav") "htdemucs" "wav"
    "tid" "/tmp/u.wav" "boom" none (CacheState.mk none)
    (CacheState.mk (some (Handle.mk "htdemucs" "cpu")))
    (Handle.mk "htdemucs" "cpu") true (by decide) rfl rfl

/-- Claim C5: a successful bundle, for every `format` value including
`mp3`, is a zip whose entries are exactly one `<stem>.wav` per stem of the
engine result, each WAV-encoded, delivered with the
`stems_<track_id>.zip` disposition. -/
theorem C5_zip_bundle (env : Env) (filename : Option String)
    (model format track_id tmp_path : String) (s s1 : CacheState)
    (separator : Handle) (b : Bool) (separated : List (String × List Int))
    (hf : ¬ filename.getD "" = "")
    (hgs : get_separator env model s = (Except.ok separator, s1, b))
    (heng : env.engine separator tmp_path = Except.ok separated) :
    (separate_all_stems env filename model format track_id tmp_path s).1 =
      Response.zipBundle
        (separated.map (fun p =>
          (p.1 ++ ".wav", env.encodeWav p.2 (env.samplerate separator))))
        "application/zip"
        ("attachment; filename=\"stems_" ++ track_id ++ ".zip\"") track_id := by
  simp [separate_all_stems, hf, separate_all_body, hgs, heng, wrapResponseAll]

/-- Witness for C5: a `format=mp3` bundle still contains WAV entries. -/
theorem C5_zip_bundle_witness :
    (separate_all_stems envOk (some "song.wav") "htdemucs" "mp3" "tid"
        "/tmp/u.wav" (CacheState.mk none)).1 =
      Response.zipBundle [("vocals.wav", [0, 1, 2]), ("drums.wav", [0, 3])]
        "application/zip" "attachment; filename=\"stems_tid.zip\"" "tid" := by
  rw [C5_zip_bundle envOk (some "song.wav") "htdemucs" "mp3" "tid" "/tmp/u.wav"
    (CacheState.mk none) (CacheState.mk (some (Handle.mk "htdemucs" "cpu")))
    (Handle.mk "htdemucs" "cpu") true [("vocals", [1, 2]), ("drums", [3])]
    (by decide) rfl rfl]
  decide

/-- Claim C6: a filterless success returns the metadata descriptor whose
stem list is the exact image of the engine's mapping — same names, each
with the byte length of its encoded artifact — in the
`{track_id, stems, model, device}` shape, which carries no audio bytes. -/
theorem C6_metadata (env : Env) (filename : Option String)
    (model track_id tmp_path : String) (s s1 : CacheState)
    (separator : Handle) (b : Bool) (separated : List (String × List Int))
    (hf : ¬ filename.getD "" = "")
    (hgs : get_separator env model s = (Except.ok separator, s1, b))
    (heng : env.engine separator tmp_path = Except.ok separated) :
    (separate_audio env filename model none track_id tmp_path s).1 =
      Response.metadata
        (SeparationResult.mk track_id
          (separated.map (fun p =>
            StemInfo.mk p.1 (env.encodeWav p.2 (env.samplerate separator)).length))
          model (selectDevice env)) := by
  simp [separate_audio, hf, separate_body, hgs, heng, wrapResponse]

/-- Witness for C6: the vocals/drums result with its encoded sizes. -/
theorem C6_metadata_witness :
    (separate_audio envOk (some "song.wav") "htdemucs" none "tid" "/tmp/u.wav"
        (CacheState.mk none)).1 =
      Response.metadata
        (SeparationResult.mk "tid"
          [StemInfo.mk "vocals" 3, StemInfo.mk "drums" 2] "htdemucs" "cpu") := by
  rw [C6_metadata envOk (some "song.wav") "htdemucs" "tid" "/tmp/u.wav"
    (CacheState.mk none) (CacheState.mk (some (Handle.mk "htdemucs" "cpu")))
    (Handle.mk "htdemucs" "cpu") true [("vocals", [1, 2]), ("drums", [3])]
    (by decide) rfl rfl]
  decide

/-- Claim C7: a missing or empty filename makes both handlers answer 400
with the `No filename provided` detail, leaving the state untouched and
an empty event trace — no scratch file is ever created. -/
theorem C7_empty_filename (env env2 : Env) (filename : Option String)
    (model format track_id tmp_path : String) (stem : Option String)
    (s s2 : CacheState)
    (hf : filename = none ∨ filename = some "") :
    separate_audio env filename model stem track_id tmp_path s =
      (Response.httpError 400 "No filename provided", s, []) ∧
    separate_all_stems env2 filename model format track_id tmp_path s2 =
      (Response.httpError 400 "No filename provided", s2, []) := by
  rcases hf with rfl | rfl <;> exact ⟨rfl, rfl⟩

/-- Witness for C7: the empty-string filename upload. -/
theorem C7_empty_filename_witness :
    separate_audio envOk (some "") "htdemucs" none "tid" "/tmp/u.wav"
        (CacheState.mk none) =
      (Response.httpError 400 "No filename provided", CacheState.mk none, []) ∧
    separate_all_stems envOk (some "") "htdemucs" "wav" "tid" "/tmp/u.wav"
        (CacheState.mk none) =
      (Response.httpError 400 "No filename provided", CacheState.mk none, []) :=
  C7_empty_filename envOk envOk (some "") "htdemucs" "wav" "tid" "/tmp/u.wav"
    none (CacheState.mk none) (CacheState.mk none) (Or.inr rfl)

end Demucs
